import Mathlib

/-!
Verification development for a push-notification demo server and its
service worker.  The embedding follows the source files:

* `src/app/api/notify/route.ts` — the `POST` handler: subscription
  registration (insert-or-replace by endpoint), notification dispatch
  (fan-out over all stored subscriptions, failure classification,
  positional pruning of permanently failed endpoints).
* `src/service-worker.js` — the `push` and `notificationclick`
  listeners of the notification presenter.

State is passed explicitly: the handler receives the in-memory
subscription list and returns the updated list together with the
response.  The outcome of each `webpush.sendNotification` call is an
external event, modelled by an oracle mapping the index of the
subscription in the snapshot to its delivery outcome.
-/

/-- A stored push subscription: the endpoint identity (possibly absent,
since the route never validates its presence) and the opaque keying
material. -/
structure PushSubscription where
  endpoint : Option String
  keys : String
deriving DecidableEq

/-- The parsed JSON body of a `POST /api/notify` request: an optional
`subscription` field and an optional `type` field (`none` models a
missing or falsy field). -/
structure RequestBody where
  subscription : Option PushSubscription
  type : Option String
deriving DecidableEq

/-- A notification action button `{ action, title, icon? }`. -/
structure NotificationAction where
  action : String
  title : String
  icon : Option String
deriving DecidableEq

/-- The `data` object of a catalog payload: deep-link URL and event type. -/
structure NotificationData where
  url : String
  type : String
deriving DecidableEq

/-- A catalog notification payload, with the exact fields built in
`route.ts` lines 84–151. -/
structure NotificationPayload where
  title : String
  body : String
  icon : String
  badge : String
  tag : String
  data : NotificationData
  actions : List NotificationAction
deriving DecidableEq

/-- The `new_match` catalog entry. -/
def newMatchPayload : NotificationPayload :=
  { title := "A New Spark! ✨"
    body := "You've matched with someone special!"
    icon := "/icon-192x192.svg"
    badge := "/icon-192x192.svg"
    tag := "new_match"
    data := { url := "/chats?new_match=true", type := "new_match" }
    actions :=
      [ { action := "view", title := "View Match", icon := some "/icon-192x192.svg" }
      , { action := "dismiss", title := "Later", icon := none } ] }

/-- The `new_message` catalog entry. -/
def newMessagePayload : NotificationPayload :=
  { title := "New Message 💬"
    body := "Someone sent you a message."
    icon := "/icon-192x192.svg"
    badge := "/icon-192x192.svg"
    tag := "new_message"
    data := { url := "/chats/123", type := "new_message" }
    actions :=
      [ { action := "view", title := "Read Now", icon := some "/icon-192x192.svg" }
      , { action := "dismiss", title := "Later", icon := none } ] }

/-- The `chat_expiry` catalog entry. -/
def chatExpiryPayload : NotificationPayload :=
  { title := "Time's Ticking! ⏰"
    body := "A chat is about to expire. Don't miss out!"
    icon := "/icon-192x192.svg"
    badge := "/icon-192x192.svg"
    tag := "chat_expiry"
    data := { url := "/chats/456", type := "chat_expiry" }
    actions :=
      [ { action := "view", title := "Open Chat", icon := some "/icon-192x192.svg" }
      , { action := "dismiss", title := "Dismiss", icon := none } ] }

/-- The payload catalog `notificationPayloads[...]`: JavaScript object
indexing returns `undefined` (here `none`) for a key outside the three
entries. -/
def notificationPayloads (ty : String) : Option NotificationPayload :=
  if ty = "new_match" then some newMatchPayload
  else if ty = "new_message" then some newMessagePayload
  else if ty = "chat_expiry" then some chatExpiryPayload
  else none

/-- An event type is known exactly when the catalog has an entry for it. -/
def knownEventType (ty : String) : Bool :=
  (notificationPayloads ty).isSome

/-- Registration of a subscription (`route.ts` lines 42–52): find the
first stored entry with the same endpoint; replace it in place if found,
otherwise push the new subscription at the end. -/
def registerSubscription (store : List PushSubscription)
    (sub : PushSubscription) : List PushSubscription :=
  match store.findIdx? (fun s => s.endpoint == sub.endpoint) with
  | some i => store.set i sub
  | none => store ++ [sub]

/-- Decides whether `pat` occurs as a contiguous substring of `hay`
(the semantics of JavaScript `String.prototype.includes`). -/
def takesPrefixOf : List Char → List Char → Bool
  | [], _ => true
  | _ :: _, [] => false
  | a :: as, b :: bs => a == b && takesPrefixOf as bs

/-- Substring search over the character lists of the two strings. -/
def containsSubList (pat : List Char) : List Char → Bool
  | [] => pat.isEmpty
  | c :: rest => takesPrefixOf pat (c :: rest) || containsSubList pat rest

/-- String-level wrapper for `containsSubList`. -/
def strContains (hay pat : String) : Bool :=
  containsSubList pat.data hay.data

/-- The outcome of one `webpush.sendNotification` call: resolution, or a
thrown value, recorded as whether it is an `Error` instance together
with its message string. -/
inductive SendOutcome
  | success
  | failure (isErrorInstance : Bool) (message : String)
deriving DecidableEq

/-- The per-subscription result record built inside the fan-out
(`route.ts` lines 156–175); the absent `shouldRemove` field of the
success and plain-failure records is the falsy `false`. -/
structure SendResult where
  success : Bool
  index : Nat
  shouldRemove : Bool
deriving DecidableEq

/-- One delivery attempt (`route.ts` lines 157–175): success yields
`{ success: true, index }`; a thrown error yields `shouldRemove` exactly
when it is an `Error` whose message contains `"410"` or `"expired"`. -/
def attemptSend (index : Nat) (outcome : SendOutcome) : SendResult :=
  match outcome with
  | .success => { success := true, index := index, shouldRemove := false }
  | .failure isErr msg =>
      if isErr && (strContains msg "410" || strContains msg "expired") then
        { success := false, index := index, shouldRemove := true }
      else
        { success := false, index := index, shouldRemove := false }

/-- Descending insertion of a value into a list. -/
def insertDesc (i : Nat) : List Nat → List Nat
  | [] => [i]
  | j :: t => if j ≤ i then i :: j :: t else j :: insertDesc i t

/-- Descending sort, modelling `sort((a, b) => b - a)` at line 184. -/
def sortDesc (l : List Nat) : List Nat :=
  l.foldr insertDesc []

/-- The results of the concurrent fan-out: `Promise.all` keeps the
results in the order of `pushSubscriptions.map`, one per index of the
snapshot, independent of the completion order of the sends. -/
def dispatchResults (n : Nat) (o : Nat → SendOutcome) : List SendResult :=
  (List.range n).map (fun i => attemptSend i (o i))

/-- Indices marked for removal (`route.ts` lines 181–184): filter the
results on `shouldRemove`, keep their `index` fields, sort descending. -/
def invalidIndicesOf (results : List SendResult) : List Nat :=
  sortDesc ((results.filter (fun r => r.shouldRemove)).map (fun r => r.index))

/-- Pruning (`route.ts` lines 186–188): `splice(index, 1)` for each
marked index in the (descending) order produced by `invalidIndicesOf`. -/
def pruneStore (store : List PushSubscription) (idxs : List Nat) :
    List PushSubscription :=
  idxs.foldl (fun acc i => acc.eraseIdx i) store

/-- The notification report returned on a completed dispatch. -/
structure DispatchReport where
  type : String
  sent : Nat
  failed : Nat
  totalSubscriptions : Nat
deriving DecidableEq

/-- The four response shapes of the `POST` handler (the try/catch 500
path concerns faults of the runtime, not of this logic). -/
inductive PostResponse
  | subscriptionStored (subscriptionsCount : Nat)
  | noSubscriptions
  | notificationReport (report : DispatchReport)
  | invalidBody
deriving DecidableEq

/-- HTTP status of each response shape. -/
def responseStatus : PostResponse → Nat
  | .subscriptionStored _ => 200
  | .noSubscriptions => 400
  | .notificationReport _ => 200
  | .invalidBody => 400

/-- Error string of the two 4xx response shapes. -/
def responseError : PostResponse → Option String
  | .subscriptionStored _ => none
  | .noSubscriptions => some "No subscriptions found"
  | .notificationReport _ => none
  | .invalidBody => some "Invalid request body - neither subscription nor type found"

/-- Observable result of one `POST` invocation: the updated store, the
response, the number of `webpush.sendNotification` calls issued, and,
when a fan-out happened, the catalog lookup that was serialized as the
payload of every send (`none` inside means `undefined`). -/
structure PostResult where
  store : List PushSubscription
  response : PostResponse
  attempts : Nat
  payloadSent : Option (Option NotificationPayload)
deriving DecidableEq

/-- The opportunistic storage step at `route.ts` lines 68–71: when a
dispatch request arrives with an empty store and carries a
`subscription`, push it before counting. -/
def opportunisticStore (store : List PushSubscription)
    (osub : Option PushSubscription) : List PushSubscription :=
  if store.length = 0 then
    match osub with
    | some sub => store ++ [sub]
    | none => store
  else store

/-- The dispatch block of the handler (`route.ts` lines 73–201), run on
the store as it stands after the opportunistic-store step: the
empty-store 400, then the catalog lookup, the fan-out, the pruning and
the report. -/
def runDispatch (store1 : List PushSubscription) (ty : String)
    (o : Nat → SendOutcome) : PostResult :=
  if store1.length = 0 then
    { store := store1, response := .noSubscriptions
      attempts := 0, payloadSent := none }
  else
    let payload := notificationPayloads ty
    let results := dispatchResults store1.length o
    let invalidIndices := invalidIndicesOf results
    let store2 := pruneStore store1 invalidIndices
    let successCount := (results.filter (fun r => r.success)).length
    let failureCount := results.length - successCount
    { store := store2
      response := .notificationReport
        { type := ty, sent := successCount, failed := failureCount
          totalSubscriptions := store2.length }
      attempts := store1.length
      payloadSent := some payload }

/-- The `POST` handler of `route.ts` (lines 30–229), after JSON parsing:
a body with a `subscription` and no `type` registers; a body with a
`type` dispatches (with the opportunistic store step before the
dispatch block); a body with neither is a 400 invalid-body error. -/
def handlePOST (store : List PushSubscription) (body : RequestBody)
    (o : Nat → SendOutcome) : PostResult :=
  match body.subscription, body.type with
  | some sub, none =>
      let store1 := registerSubscription store sub
      { store := store1
        response := .subscriptionStored store1.length
        attempts := 0
        payloadSent := none }
  | osub, some ty => runDispatch (opportunisticStore store osub) ty o
  | none, none =>
      { store := store, response := .invalidBody
        attempts := 0, payloadSent := none }




/-- The nested `data` object of a parsed push payload (`data.data` in the
worker); each field may be absent. -/
structure PushDataField where
  url : Option String
  type : Option String
deriving DecidableEq

/-- A parsed push payload body, with the fields the worker reads
(anything else in the JSON is irrelevant to the shown notification
fields modelled here). -/
structure ParsedPush where
  title : Option String
  body : Option String
  icon : Option String
  badge : Option String
  tag : Option String
  data : Option PushDataField
deriving DecidableEq

/-- The body situation of one push event: no `event.data` at all, a body
whose `.json()` throws, or a parsed object. -/
inductive PushData
  | noData
  | unparseable
  | parsed (d : ParsedPush)
deriving DecidableEq

/-- The fields of one shown notification that the worker determines
(title argument plus the options object of `showNotification`). -/
structure ShownNotification where
  title : String
  body : Option String
  icon : String
  badge : String
  vibrate : List Nat
  requireInteraction : Bool
  renotify : Bool
  tag : Option String
  dataUrl : String
  dataType : Option String
deriving DecidableEq

/-- The fallback notification of the catch branch (`service-worker.js`
lines 104–111): fixed title, body and icon, `data = { url: "/" }` with
no `type` field, and none of the default options. -/
def fallbackNotification : ShownNotification :=
  { title := "New Notification"
    body := some "You have a new notification"
    icon := "/icon-192x192.svg"
    badge := "/icon-192x192.svg"
    vibrate := []
    requireInteraction := false
    renotify := false
    tag := none
    dataUrl := "/"
    dataType := none }

/-- The merge of `service-worker.js` lines 72–98: spread the defaults,
override them with the parsed payload fields that are present, and
build `data` with `url` and `type` defaulted to `"/"` and `"unknown"`
(the trailing `...data.data` spread re-imposes only present fields, so
the defaults stand exactly when the field is absent). -/
def mergedNotification (d : ParsedPush) : ShownNotification :=
  { title := d.title.getD "New Notification"
    body := d.body
    icon := d.icon.getD "/icon-192x192.svg"
    badge := d.badge.getD "/icon-192x192.svg"
    vibrate := [200, 100, 200]
    requireInteraction := true
    renotify := true
    tag := d.tag
    dataUrl := ((d.data.bind (fun dd => dd.url)).getD "/")
    dataType := some ((d.data.bind (fun dd => dd.type)).getD "unknown") }

/-- The `push` listener (`service-worker.js` lines 57–113) as the list
of notifications it shows: an early return on absent data, the merged
notification on a parsed body, the fallback on a parse error. -/
def handlePush : PushData → List ShownNotification
  | .noData => []
  | .unparseable => [fallbackNotification]
  | .parsed d => [mergedNotification d]

/-- One entry of the `clients.matchAll` result: its current URL and
whether `'focus' in client` holds. -/
structure ClientInfo where
  url : String
  canFocus : Bool
deriving DecidableEq

/-- A window operation the click handler can perform. -/
inductive WindowOp
  | focusOp (i : Nat)
  | navigateOp (i : Nat) (url : String)
  | openWindowOp (url : String)
deriving DecidableEq

/-- The loop of `service-worker.js` lines 146–160: the first client of
the list that has a `focus` member, with its position. -/
def findFocusable : List ClientInfo → Option (Nat × ClientInfo)
  | [] => none
  | c :: rest =>
      if c.canFocus then some (0, c)
      else (findFocusable rest).map (fun p => (p.1 + 1, p.2))

/-- The promise chain of the click handler after the dismiss check:
focus the first focusable client and navigate it when its URL differs,
otherwise open a new window when `clients.openWindow` exists.  Returns
the operations actually performed (an operation whose attempt fails
stops the chain) and whether the chain rejected (which the trailing
`.catch` turns into a log). -/
def clickChain (cs : List ClientInfo) (openWindowAvail : Bool)
    (urlToOpen : String) (opFails : WindowOp → Bool) :
    List WindowOp × Bool :=
  match findFocusable cs with
  | some (i, c) =>
      if opFails (.focusOp i) then ([.focusOp i], true)
      else if c.url ≠ urlToOpen then
        if opFails (.navigateOp i urlToOpen) then
          ([.focusOp i, .navigateOp i urlToOpen], true)
        else ([.focusOp i, .navigateOp i urlToOpen], false)
      else ([.focusOp i], false)
  | none =>
      if openWindowAvail then
        if opFails (.openWindowOp urlToOpen) then
          ([.openWindowOp urlToOpen], true)
        else ([.openWindowOp urlToOpen], false)
      else ([], false)

/-- Observable result of one `notificationclick` event: whether the
notification was closed, the window operations performed, and whether an
error was caught and logged by the trailing `.catch`. -/
structure ClickResult where
  closed : Bool
  ops : List WindowOp
  errorLogged : Bool
deriving DecidableEq

/-- The `notificationclick` listener (`service-worker.js` lines
116–172): close the notification first; stop there when the action is
`"dismiss"`; otherwise run the focus-or-open chain on
`data.url || "/"`, with every chain error caught and logged. -/
def handleNotificationClick (dataUrl : Option String) (action : String)
    (cs : List ClientInfo) (openWindowAvail : Bool)
    (opFails : WindowOp → Bool) : ClickResult :=
  if action = "dismiss" then
    { closed := true, ops := [], errorLogged := false }
  else
    let urlToOpen := dataUrl.getD "/"
    let chain := clickChain cs openWindowAvail urlToOpen opFails
    { closed := true, ops := chain.1, errorLogged := chain.2 }



/-! ### Bookkeeping lemmas about the descending sort and the pruning fold -/

theorem insertDesc_perm (i : Nat) (l : List Nat) :
    List.Perm (insertDesc i l) (i :: l) := by
  induction l with
  | nil => simp [insertDesc]
  | cons j t ih =>
    by_cases h : j ≤ i
    · simp [insertDesc, h]
    · simp only [insertDesc, if_neg h]
      exact (ih.cons j).trans (List.Perm.swap i j t)

theorem sortDesc_perm (l : List Nat) : List.Perm (sortDesc l) l := by
  induction l with
  | nil => simp [sortDesc]
  | cons j t ih =>
    simpa [sortDesc] using (insertDesc_perm j (sortDesc t)).trans (ih.cons j)

theorem insertDesc_sorted {l : List Nat} (i : Nat)
    (h : l.Pairwise (fun a b => b ≤ a)) :
    (insertDesc i l).Pairwise (fun a b => b ≤ a) := by
  induction l with
  | nil => simp [insertDesc]
  | cons j t ih =>
    rcases List.pairwise_cons.mp h with ⟨hj, ht⟩
    by_cases hji : j ≤ i
    · simp only [insertDesc, if_pos hji]
      refine List.pairwise_cons.mpr ⟨?_, h⟩
      intro b hb
      rcases List.mem_cons.mp hb with rfl | hb
      · exact hji
      · exact le_trans (hj b hb) hji
    · simp only [insertDesc, if_neg hji]
      refine List.pairwise_cons.mpr ⟨?_, ih ht⟩
      intro b hb
      have hb2 : b ∈ i :: t := (insertDesc_perm i t).mem_iff.mp hb
      rcases List.mem_cons.mp hb2 with rfl | hb3
      · omega
      · exact hj b hb3

theorem sortDesc_sorted (l : List Nat) :
    (sortDesc l).Pairwise (fun a b => b ≤ a) := by
  induction l with
  | nil => simp [sortDesc]
  | cons j t ih => simpa [sortDesc] using insertDesc_sorted j ih

theorem sortDesc_eq_of_perm {l1 l2 : List Nat} (h : List.Perm l1 l2) :
    sortDesc l1 = sortDesc l2 := by
  have hA : IsAntisymm Nat (fun a b => b ≤ a) :=
    ⟨fun a b h1 h2 => le_antisymm h2 h1⟩
  exact List.eq_of_perm_of_sorted
    (((sortDesc_perm l1).trans h).trans (sortDesc_perm l2).symm)
    (sortDesc_sorted l1) (sortDesc_sorted l2)

theorem sortDesc_pairwise_gt {l : List Nat} (h : l.Nodup) :
    (sortDesc l).Pairwise (fun a b => b < a) := by
  have h1 := sortDesc_sorted l
  have h2 : (sortDesc l).Nodup := ((sortDesc_perm l).symm).nodup h
  exact (h1.and h2).imp (by intro a b hab; omega)

theorem length_pruneStore :
    ∀ (idxs : List Nat) (l : List PushSubscription),
      idxs.Pairwise (fun a b => b < a) → (∀ i ∈ idxs, i < l.length) →
      (pruneStore l idxs).length = l.length - idxs.length := by
  intro idxs
  induction idxs with
  | nil => intro l _ _; simp [pruneStore]
  | cons i rest ih =>
    intro l hp hb
    rcases List.pairwise_cons.mp hp with ⟨hrest, hp2⟩
    have hi : i < l.length := hb i (List.mem_cons_self i rest)
    have h1 : (l.eraseIdx i).length = l.length - 1 := by
      rw [List.length_eraseIdx]; simp [hi]
    have h2 : pruneStore l (i :: rest) = pruneStore (l.eraseIdx i) rest := by
      simp [pruneStore]
    rw [h2, ih (l.eraseIdx i) hp2 ?_]
    · rw [h1]; simp only [List.length_cons]; omega
    · intro j hj
      have hji : j < i := hrest j hj
      rw [h1]; omega

theorem mem_pruneStore :
    ∀ (idxs : List Nat) (l : List PushSubscription) (p : Nat) (hp : p < l.length),
      idxs.Pairwise (fun a b => b < a) → (∀ i ∈ idxs, i < l.length) → p ∉ idxs →
      l.get ⟨p, hp⟩ ∈ pruneStore l idxs := by
  intro idxs
  induction idxs with
  | nil =>
    intro l p hp _ _ _
    simp only [pruneStore, List.foldl_nil]
    exact List.get_mem l p hp
  | cons i rest ih =>
    intro l p hp hpw hb hnot
    rcases List.pairwise_cons.mp hpw with ⟨hrest, hp2⟩
    have hi : i < l.length := hb i (List.mem_cons_self i rest)
    have hlen : (l.eraseIdx i).length = l.length - 1 := by
      rw [List.length_eraseIdx]; simp [hi]
    have hpi : p ≠ i := fun h => hnot (h ▸ List.mem_cons_self i rest)
    have hrest2 : ∀ j ∈ rest, j < (l.eraseIdx i).length := by
      intro j hj
      have := hrest j hj
      rw [hlen]; omega
    have hstep : pruneStore l (i :: rest) = pruneStore (l.eraseIdx i) rest := by
      simp [pruneStore]
    rw [hstep]
    rcases Nat.lt_or_ge p i with hlt | hge
    · have hp3 : p < (l.eraseIdx i).length := by rw [hlen]; omega
      have hval : (l.eraseIdx i).get ⟨p, hp3⟩ = l.get ⟨p, hp⟩ := by
        simpa [List.get_eq_getElem] using
          List.getElem_eraseIdx_of_lt l i p hp3 hlt
      have := ih (l.eraseIdx i) p hp3 hp2 hrest2
        (fun hmem => hnot (List.mem_cons_of_mem i hmem))
      rwa [hval] at this
    · have hgt : i < p := lt_of_le_of_ne hge (Ne.symm hpi)
      have hp3 : p - 1 < (l.eraseIdx i).length := by rw [hlen]; omega
      have hval : (l.eraseIdx i).get ⟨p - 1, hp3⟩ = l.get ⟨p, hp⟩ := by
        have h4 := List.getElem_eraseIdx_of_ge l i (p - 1) hp3 (by omega)
        have h5 : p - 1 + 1 = p := by omega
        simpa [List.get_eq_getElem, h5] using h4
      have hnotrest : p - 1 ∉ rest := by
        intro hmem
        have := hrest (p - 1) hmem
        omega
      have := ih (l.eraseIdx i) (p - 1) hp3 hp2 hrest2 hnotrest
      rwa [hval] at this

/-- Success of an outcome, as the fan-out records it. -/
def outcomeSuccess : SendOutcome → Bool
  | .success => true
  | .failure _ _ => false

/-- Permanent-failure classification of an outcome, as the fan-out
records it in `shouldRemove`. -/
def outcomePermanent : SendOutcome → Bool
  | .success => false
  | .failure isErr msg =>
      isErr && (strContains msg "410" || strContains msg "expired")

theorem attemptSend_success (i : Nat) (w : SendOutcome) :
    (attemptSend i w).success = outcomeSuccess w := by
  cases w with
  | success => rfl
  | failure isErr msg =>
    simp only [attemptSend, outcomeSuccess]
    split <;> rfl

theorem attemptSend_shouldRemove (i : Nat) (w : SendOutcome) :
    (attemptSend i w).shouldRemove = outcomePermanent w := by
  cases w with
  | success => rfl
  | failure isErr msg =>
    simp only [attemptSend, outcomePermanent]
    split <;> simp_all

theorem attemptSend_index (i : Nat) (w : SendOutcome) :
    (attemptSend i w).index = i := by
  cases w with
  | success => rfl
  | failure isErr msg =>
    simp only [attemptSend]
    split <;> rfl

theorem dispatchResults_length (n : Nat) (o : Nat → SendOutcome) :
    (dispatchResults n o).length = n := by
  simp [dispatchResults]

/-- The indices marked for removal by a fan-out over `n` subscriptions
are exactly the positions whose outcome is classified permanent. -/
theorem marked_indices_eq (n : Nat) (o : Nat → SendOutcome) :
    ((dispatchResults n o).filter (fun r => r.shouldRemove)).map (fun r => r.index)
      = (List.range n).filter (fun i => outcomePermanent (o i)) := by
  unfold dispatchResults
  rw [List.filter_map, List.map_map]
  have h1 : ((fun r => r.index) ∘ fun i => attemptSend i (o i)) = fun i : Nat => i := by
    funext i
    simp [Function.comp, attemptSend_index]
  have h2 : ((fun r => r.shouldRemove) ∘ fun i => attemptSend i (o i))
      = fun i => outcomePermanent (o i) := by
    funext i
    simp [Function.comp, attemptSend_shouldRemove]
  rw [h1, h2, List.map_id']

/-- Count of successful results of a fan-out over `n` subscriptions. -/
theorem successCount_eq (n : Nat) (o : Nat → SendOutcome) :
    ((dispatchResults n o).filter (fun r => r.success)).length
      = ((List.range n).filter (fun i => outcomeSuccess (o i))).length := by
  unfold dispatchResults
  rw [List.filter_map]
  have h2 : ((fun r => r.success) ∘ fun i => attemptSend i (o i))
      = fun i => outcomeSuccess (o i) := by
    funext i
    simp [Function.comp, attemptSend_success]
  rw [h2, List.length_map]

theorem opportunisticStore_none (store : List PushSubscription) :
    opportunisticStore store none = store := by
  unfold opportunisticStore
  split <;> rfl

/-- Reduction of the dispatch branch of the handler on a non-empty store
and a body carrying only a `type`. -/
theorem handlePOST_dispatch_eq (store : List PushSubscription) (ty : String)
    (o : Nat → SendOutcome) (h : store.length ≠ 0) :
    handlePOST store { subscription := none, type := some ty } o
      = { store := pruneStore store (invalidIndicesOf (dispatchResults store.length o))
          response := .notificationReport
            { type := ty
              sent := ((dispatchResults store.length o).filter (fun r => r.success)).length
              failed := (dispatchResults store.length o).length
                - ((dispatchResults store.length o).filter (fun r => r.success)).length
              totalSubscriptions :=
                (pruneStore store
                  (invalidIndicesOf (dispatchResults store.length o))).length }
          attempts := store.length
          payloadSent := some (notificationPayloads ty) } := by
  show runDispatch (opportunisticStore store none) ty o = _
  rw [opportunisticStore_none]
  unfold runDispatch
  rw [if_neg h]

/-- The marked-index list of the fan-out, before sorting, is a
duplicate-free list of positions below the snapshot length. -/
theorem marked_indices_nodup (n : Nat) (o : Nat → SendOutcome) :
    ((List.range n).filter (fun i => outcomePermanent (o i))).Nodup :=
  (List.nodup_range n).filter _

theorem marked_indices_lt (n : Nat) (o : Nat → SendOutcome) :
    ∀ i ∈ (List.range n).filter (fun i => outcomePermanent (o i)), i < n := by
  intro i hi
  exact List.mem_range.mp (List.mem_of_mem_filter hi)

/-- A concrete well-formed subscription used by witnesses and
counterexamples. -/
def demoSub : PushSubscription := { endpoint := some "E1", keys := "key-material-1" }

/-- C1: for a dispatch of a known event type over a snapshot of N stored
subscriptions in which exactly S delivery attempts succeed and exactly K
report a permanent failure, the report has sent = S, failed = N − S,
totalSubscriptions equal to the new store total, and the post-dispatch
store count is N − K; pruning by descending positional splice yields the
same store for every completion order (every permutation) of the marked
indices. -/
theorem C1_dispatch_report_counts (store : List PushSubscription) (ty : String)
    (o : Nat → SendOutcome) (hne : 0 < store.length)
    (_hty : knownEventType ty = true) :
    (handlePOST store { subscription := none, type := some ty } o).response
      = .notificationReport
          { type := ty
            sent := ((List.range store.length).filter
              (fun i => outcomeSuccess (o i))).length
            failed := store.length
              - ((List.range store.length).filter
                  (fun i => outcomeSuccess (o i))).length
            totalSubscriptions := store.length
              - ((List.range store.length).filter
                  (fun i => outcomePermanent (o i))).length }
      ∧ (handlePOST store { subscription := none, type := some ty } o).store.length
          = store.length
            - ((List.range store.length).filter
                (fun i => outcomePermanent (o i))).length
      ∧ ∀ idxs : List Nat,
          List.Perm idxs
            ((List.range store.length).filter (fun i => outcomePermanent (o i))) →
          pruneStore store (sortDesc idxs)
            = (handlePOST store { subscription := none, type := some ty } o).store := by
  have hlen : store.length ≠ 0 := by omega
  rw [handlePOST_dispatch_eq store ty o hlen]
  have hinv : invalidIndicesOf (dispatchResults store.length o)
      = sortDesc ((List.range store.length).filter
          (fun i => outcomePermanent (o i))) := by
    unfold invalidIndicesOf
    rw [marked_indices_eq store.length o]
  have hpw := sortDesc_pairwise_gt (marked_indices_nodup store.length o)
  have hbound : ∀ i ∈ sortDesc ((List.range store.length).filter
      (fun i => outcomePermanent (o i))), i < store.length := by
    intro i hi
    exact marked_indices_lt store.length o i ((sortDesc_perm _).mem_iff.mp hi)
  have hlenprune :
      (pruneStore store (sortDesc ((List.range store.length).filter
          (fun i => outcomePermanent (o i))))).length
        = store.length
          - ((List.range store.length).filter
              (fun i => outcomePermanent (o i))).length := by
    rw [length_pruneStore _ store hpw hbound, (sortDesc_perm _).length_eq]
  refine ⟨?_, ?_, ?_⟩
  · dsimp only
    rw [successCount_eq store.length o, dispatchResults_length store.length o,
      hinv, hlenprune]
  · dsimp only
    rw [hinv, hlenprune]
  · intro idxs hperm
    dsimp only
    rw [hinv, sortDesc_eq_of_perm hperm]

theorem C1_dispatch_report_counts_witness :
    0 < ([demoSub] : List PushSubscription).length
      ∧ knownEventType "new_match" = true
      ∧ (handlePOST [demoSub] { subscription := none, type := some "new_match" }
            (fun _ => .success)).response
          = .notificationReport
              { type := "new_match", sent := 1, failed := 0, totalSubscriptions := 1 } :=
  ⟨by decide, by decide, by
    have h := C1_dispatch_report_counts [demoSub] "new_match" (fun _ => .success)
      (by decide) (by decide)
    rw [h.1]
    decide⟩

/-- C2: during a dispatch, a failed delivery attempt is marked for
pruning iff the thrown value is an Error whose message contains "410" or
"expired" (the transport reporting the endpoint permanently gone); any
other failure is recorded as not successful while the subscription
survives the pruning, and exactly one send is attempted per stored
subscription (no retry within the dispatch). -/
theorem C2_failure_classification (store : List PushSubscription) (ty : String)
    (o : Nat → SendOutcome) (i : Nat) (hi : i < store.length)
    (isErr : Bool) (msg : String) (hfail : o i = .failure isErr msg) :
    ((attemptSend i (o i)).shouldRemove = true ↔
        isErr = true ∧ (strContains msg "410" = true ∨ strContains msg "expired" = true))
      ∧ (attemptSend i (o i)).success = false
      ∧ ((attemptSend i (o i)).shouldRemove = false →
          store.get ⟨i, hi⟩
            ∈ (handlePOST store { subscription := none, type := some ty } o).store)
      ∧ (handlePOST store { subscription := none, type := some ty } o).attempts
          = store.length := by
  have hlen : store.length ≠ 0 := by omega
  refine ⟨?_, ?_, ?_, ?_⟩
  · rw [attemptSend_shouldRemove, hfail]
    simp [outcomePermanent]
  · rw [attemptSend_success, hfail]
    rfl
  · intro hkeep
    rw [handlePOST_dispatch_eq store ty o hlen]
    dsimp only
    have hinv : invalidIndicesOf (dispatchResults store.length o)
        = sortDesc ((List.range store.length).filter
            (fun j => outcomePermanent (o j))) := by
      unfold invalidIndicesOf
      rw [marked_indices_eq store.length o]
    rw [hinv]
    have hpw := sortDesc_pairwise_gt (marked_indices_nodup store.length o)
    have hbound : ∀ j ∈ sortDesc ((List.range store.length).filter
        (fun j => outcomePermanent (o j))), j < store.length := by
      intro j hj
      exact marked_indices_lt store.length o j ((sortDesc_perm _).mem_iff.mp hj)
    have hnot : i ∉ sortDesc ((List.range store.length).filter
        (fun j => outcomePermanent (o j))) := by
      intro hmem
      have hmem2 := (sortDesc_perm _).mem_iff.mp hmem
      have := List.of_mem_filter hmem2
      rw [attemptSend_shouldRemove] at hkeep
      simp_all
    exact mem_pruneStore _ store i hi hpw hbound hnot
  · rw [handlePOST_dispatch_eq store ty o hlen]

theorem C2_failure_classification_witness :
    (0 : Nat) < ([demoSub] : List PushSubscription).length
      ∧ (fun _ : Nat => SendOutcome.failure true "rate limited") 0
          = SendOutcome.failure true "rate limited"
      ∧ demoSub ∈ (handlePOST [demoSub]
          { subscription := none, type := some "new_match" }
          (fun _ => .failure true "rate limited")).store :=
  ⟨by decide, rfl, by
    have h := C2_failure_classification [demoSub] "new_match"
      (fun _ => .failure true "rate limited") 0 (by decide) true "rate limited" rfl
    exact h.2.2.1 (by decide)⟩

/-- C3: contrary to the claim, the handler never consults the catalog to
reject an unknown event type: with one stored subscription and type
"unknown_type" it attempts one delivery (carrying the undefined catalog
lookup as payload) and answers with a success report, and with an empty
store it even stores the subscription included in the request. -/
theorem C3_unknown_type_still_dispatches :
    knownEventType "unknown_type" = false
      ∧ (handlePOST [demoSub] { subscription := none, type := some "unknown_type" }
          (fun _ => .success)).attempts = 1
      ∧ (handlePOST [demoSub] { subscription := none, type := some "unknown_type" }
          (fun _ => .success)).response
          = .notificationReport
              { type := "unknown_type", sent := 1, failed := 0, totalSubscriptions := 1 }
      ∧ (handlePOST [demoSub] { subscription := none, type := some "unknown_type" }
          (fun _ => .success)).payloadSent = some none
      ∧ (handlePOST [] { subscription := some demoSub, type := some "unknown_type" }
          (fun _ => .success)).store = [demoSub] := by
  decide

/-- C5: a dispatch with a known event type, an empty store and no
subscription in the body answers 400 { error: "No subscriptions found" },
attempts no delivery, and leaves the store empty. -/
theorem C5_empty_store_error (ty : String) (o : Nat → SendOutcome)
    (_hty : knownEventType ty = true) :
    handlePOST [] { subscription := none, type := some ty } o
      = { store := [], response := .noSubscriptions
          attempts := 0, payloadSent := none }
      ∧ responseStatus .noSubscriptions = 400
      ∧ responseError .noSubscriptions = some "No subscriptions found" :=
  ⟨rfl, rfl, rfl⟩

theorem C5_empty_store_error_witness :
    knownEventType "new_match" = true
      ∧ handlePOST [] { subscription := none, type := some "new_match" }
          (fun _ => .success)
        = { store := [], response := .noSubscriptions
            attempts := 0, payloadSent := none } :=
  ⟨by decide, (C5_empty_store_error "new_match" (fun _ => .success) (by decide)).1⟩

/-- C6: the fan-out makes one attempt per subscription of the snapshot, a
report is produced whatever the outcomes are, and the result recorded at
index i depends only on the outcome at index i — outcomes of the other
subscriptions (including failures) cannot alter it. -/
theorem C6_isolated_fanout (store : List PushSubscription) (ty : String)
    (o : Nat → SendOutcome) (h : 0 < store.length) :
    (handlePOST store { subscription := none, type := some ty } o).attempts
        = store.length
      ∧ (∃ rep, (handlePOST store { subscription := none, type := some ty } o).response
          = .notificationReport rep)
      ∧ ∀ (o2 : Nat → SendOutcome) (i : Nat), i < store.length → o i = o2 i →
          (dispatchResults store.length o)[i]? = (dispatchResults store.length o2)[i]? := by
  have hlen : store.length ≠ 0 := by omega
  rw [handlePOST_dispatch_eq store ty o hlen]
  refine ⟨rfl, ⟨_, rfl⟩, ?_⟩
  intro o2 i hi ho
  unfold dispatchResults
  rw [List.getElem?_map, List.getElem?_map, List.getElem?_range hi]
  simp [ho]

theorem C6_isolated_fanout_witness :
    (0 : Nat) < ([demoSub] : List PushSubscription).length
      ∧ (handlePOST [demoSub] { subscription := none, type := some "new_message" }
          (fun _ => .success)).attempts = 1 :=
  ⟨by decide,
    (C6_isolated_fanout [demoSub] "new_message" (fun _ => .success) (by decide)).1⟩

/-- A subscription value whose endpoint field is missing, as a client
could send it; the route stores it without validation. -/
def endpointlessSub : PushSubscription := { endpoint := none, keys := "orphan-keys" }

/-- C7 counterexample: a registration whose subscription misses its
endpoint is not rejected — the record is stored and the handler answers
with the success message and the count. -/
theorem C7_missing_endpoint_stored :
    handlePOST [] { subscription := some endpointlessSub, type := none }
        (fun _ => .success)
      = { store := [endpointlessSub]
          response := .subscriptionStored 1
          attempts := 0, payloadSent := none }
      ∧ responseStatus (.subscriptionStored 1) = 200 := by
  decide

/-- C7 amended: every registration request carrying a subscription value
(also one missing its endpoint) succeeds, stores by insert-or-replace on
the endpoint value, and returns the new total; only a body with neither
subscription nor type is rejected, with a 400 validation error and no
store change. -/
theorem C7_registration_amended (store : List PushSubscription)
    (s : PushSubscription) (o : Nat → SendOutcome) :
    (handlePOST store { subscription := some s, type := none } o).response
        = .subscriptionStored (registerSubscription store s).length
      ∧ (handlePOST store { subscription := some s, type := none } o).store
          = registerSubscription store s
      ∧ (handlePOST store { subscription := some s, type := none } o).attempts = 0
      ∧ (handlePOST store { subscription := none, type := none } o).response = .invalidBody
      ∧ (handlePOST store { subscription := none, type := none } o).store = store
      ∧ responseStatus .invalidBody = 400 :=
  ⟨rfl, rfl, rfl, rfl, rfl, rfl⟩

/-- C8 counterexample: a push arrival carrying no body at all shows no
notification (the listener returns before any showNotification call),
not the one fallback notification the claim requires. -/
theorem C8_no_data_shows_nothing :
    handlePush .noData = [] ∧ handlePush .noData ≠ [fallbackNotification] := by
  decide

/-- C8 amended: a push arrival whose body is present but not parseable
shows exactly one fallback notification with the fixed title, body and
icon and data.url = "/", while an arrival with no body shows none. -/
theorem C8_fallback_on_unparseable :
    handlePush .unparseable = [fallbackNotification]
      ∧ fallbackNotification.title = "New Notification"
      ∧ fallbackNotification.body = some "You have a new notification"
      ∧ fallbackNotification.icon = "/icon-192x192.svg"
      ∧ fallbackNotification.dataUrl = "/"
      ∧ handlePush .noData = [] := by
  decide

/-- C10: when the store is non-empty, a dispatch request that also
carries a subscription behaves exactly as the same request without it:
the opportunistic-store step leaves the store untouched, so the fan-out
snapshot, the response and the final store are identical. -/
theorem C10_subscription_ignored_when_nonempty (store : List PushSubscription)
    (s : PushSubscription) (ty : String) (o : Nat → SendOutcome)
    (h : store.length ≠ 0) :
    handlePOST store { subscription := some s, type := some ty } o
        = handlePOST store { subscription := none, type := some ty } o
      ∧ opportunisticStore store (some s) = store := by
  have h2 : opportunisticStore store (some s) = store := by
    unfold opportunisticStore
    rw [if_neg h]
  refine ⟨?_, h2⟩
  show runDispatch (opportunisticStore store (some s)) ty o
      = runDispatch (opportunisticStore store none) ty o
  rw [h2, opportunisticStore_none]

theorem C10_subscription_ignored_when_nonempty_witness :
    ([demoSub] : List PushSubscription).length ≠ 0
      ∧ handlePOST [demoSub]
          { subscription := some endpointlessSub, type := some "new_match" }
          (fun _ => .success)
        = handlePOST [demoSub] { subscription := none, type := some "new_match" }
          (fun _ => .success) :=
  ⟨by decide,
    (C10_subscription_ignored_when_nonempty [demoSub] endpointlessSub "new_match"
      (fun _ => .success) (by decide)).1⟩

/-! ### Registration lemmas -/

theorem set_self_of_getElem? {α : Type} (l : List α) (i : Nat) (a : α)
    (h : l[i]? = some a) : l.set i a = l := by
  apply List.ext_getElem?
  intro n
  by_cases hn : i = n
  · subst hn
    have hi : i < l.length := by
      by_contra hbig
      rw [List.getElem?_eq_none (by omega)] at h
      exact Option.noConfusion h
    rw [List.getElem?_set_self hi, h]
  · rw [List.getElem?_set_ne hn]

theorem register_mem_endpoint (store : List PushSubscription)
    (s : PushSubscription) :
    ∃ t ∈ registerSubscription store s, t.endpoint = s.endpoint := by
  refine ⟨s, ?_, rfl⟩
  unfold registerSubscription
  cases hf : store.findIdx? (fun t => t.endpoint == s.endpoint) with
  | none => simp
  | some i =>
    have hi := (List.findIdx?_eq_some_iff_findIdx_eq.mp hf).1
    exact List.mem_iff_getElem?.mpr ⟨i, List.getElem?_set_self hi⟩

theorem register_nodup_endpoints (store : List PushSubscription)
    (s : PushSubscription)
    (h : (store.map (fun t => t.endpoint)).Nodup) :
    ((registerSubscription store s).map (fun t => t.endpoint)).Nodup := by
  unfold registerSubscription
  cases hf : store.findIdx? (fun t => t.endpoint == s.endpoint) with
  | none =>
    have hall := List.findIdx?_eq_none_iff.mp hf
    rw [List.map_append]
    refine List.Nodup.append h (List.nodup_singleton _) ?_
    intro x hx hx2
    rcases List.mem_map.mp hx with ⟨t, ht, rfl⟩
    have hfalse := hall t ht
    have hx3 : t.endpoint = s.endpoint := by
      simpa using hx2
    rw [hx3] at hfalse
    simp at hfalse
  | some i =>
    obtain ⟨hi, hfi⟩ := List.findIdx?_eq_some_iff_findIdx_eq.mp hf
    rw [List.map_set]
    have hgot : (store.map (fun t => t.endpoint))[i]? = some s.endpoint := by
      rw [List.getElem?_map, List.getElem?_eq_getElem hi]
      have hw : store.findIdx (fun t => t.endpoint == s.endpoint) < store.length := by
        rw [hfi]; exact hi
      have hp := List.findIdx_getElem (w := hw)
      simp only [hfi] at hp
      rw [beq_iff_eq] at hp
      simp [hp]
    rw [set_self_of_getElem? _ _ _ hgot]
    exact h

theorem countP_endpoints_eq_one (e : Option String) :
    ∀ l : List PushSubscription,
      (l.map (fun t => t.endpoint)).Nodup →
      e ∈ l.map (fun t => t.endpoint) →
      l.countP (fun t => t.endpoint == e) = 1 := by
  intro l
  induction l with
  | nil => intro _ h; simp at h
  | cons a t ih =>
    intro hnd hmem
    simp only [List.map_cons] at hnd hmem
    rcases List.pairwise_cons.mp hnd with ⟨ha, ht⟩
    by_cases hae : a.endpoint = e
    · rw [List.countP_cons_of_pos _ _ (by simp [hae])]
      have h0 : t.countP (fun x => x.endpoint == e) = 0 := by
        rw [List.countP_eq_zero]
        intro x hx
        have hne := ha x.endpoint (List.mem_map.mpr ⟨x, hx, rfl⟩)
        simp only [beq_iff_eq]
        rw [hae] at hne
        exact fun hxe => hne hxe.symm
      rw [h0]
    · rw [List.countP_cons_of_neg _ _ (by simp [hae])]
      apply ih ht
      rcases List.mem_cons.mp hmem with heq | h
      · exact absurd heq.symm hae
      · exact h

/-- C4: re-registering an endpoint already stored replaces its record in
place: after the second call the lookup of that endpoint lands on the
same index i, the new store is the old one with position i overwritten
by the later subscription (holding its keying material), the count is
unchanged, and exactly one stored record carries that endpoint. -/
theorem C4_reregistration_in_place (store : List PushSubscription)
    (s1 s2 : PushSubscription)
    (hnd : (store.map (fun t => t.endpoint)).Nodup)
    (he : s1.endpoint = s2.endpoint) :
    ∃ i : Nat,
      (registerSubscription store s1).findIdx?
          (fun t => t.endpoint == s2.endpoint) = some i
        ∧ registerSubscription (registerSubscription store s1) s2
            = (registerSubscription store s1).set i s2
        ∧ i < (registerSubscription store s1).length
        ∧ (registerSubscription (registerSubscription store s1) s2)[i]? = some s2
        ∧ (registerSubscription (registerSubscription store s1) s2).length
            = (registerSubscription store s1).length
        ∧ (registerSubscription (registerSubscription store s1) s2).countP
            (fun t => t.endpoint == s2.endpoint) = 1 := by
  obtain ⟨t, ht, hte⟩ := register_mem_endpoint store s1
  have hany : (registerSubscription store s1).any
      (fun t => t.endpoint == s2.endpoint) = true :=
    List.any_eq_true.mpr ⟨t, ht, by rw [hte, he]; simp⟩
  have hsome : ((registerSubscription store s1).findIdx?
      (fun t => t.endpoint == s2.endpoint)).isSome := by
    rw [List.findIdx?_isSome, hany]
  obtain ⟨i, hfind⟩ := Option.isSome_iff_exists.mp hsome
  have hi := (List.findIdx?_eq_some_iff_findIdx_eq.mp hfind).1
  have hset : registerSubscription (registerSubscription store s1) s2
      = (registerSubscription store s1).set i s2 := by
    generalize hg : registerSubscription store s1 = st1 at hfind ⊢
    unfold registerSubscription
    rw [hfind]
  have hnd1 : ((registerSubscription store s1).map (fun t => t.endpoint)).Nodup :=
    register_nodup_endpoints store s1 hnd
  have hmem : s2.endpoint ∈ (registerSubscription store s1).map (fun t => t.endpoint) :=
    List.mem_map.mpr ⟨t, ht, by rw [hte, he]⟩
  have hmapeq : (registerSubscription (registerSubscription store s1) s2).map
      (fun t => t.endpoint) = (registerSubscription store s1).map (fun t => t.endpoint) := by
    rw [hset, List.map_set]
    apply set_self_of_getElem?
    rw [List.getElem?_map, List.getElem?_eq_getElem hi]
    have hw : (registerSubscription store s1).findIdx
        (fun t => t.endpoint == s2.endpoint) < (registerSubscription store s1).length := by
      rw [(List.findIdx?_eq_some_iff_findIdx_eq.mp hfind).2]; exact hi
    have hp := List.findIdx_getElem (w := hw)
    simp only [(List.findIdx?_eq_some_iff_findIdx_eq.mp hfind).2] at hp
    rw [beq_iff_eq] at hp
    simp [hp]
  refine ⟨i, hfind, hset, hi, ?_, ?_, ?_⟩
  · rw [hset]
    exact List.getElem?_set_self hi
  · rw [hset, List.length_set]
  · refine countP_endpoints_eq_one s2.endpoint _ ?_ ?_
    · rw [hmapeq]; exact hnd1
    · rw [hmapeq]; exact hmem

/-- The same endpoint as `demoSub` with different keying material. -/
def demoSubLater : PushSubscription :=
  { endpoint := some "E1", keys := "key-material-2" }

theorem C4_reregistration_in_place_witness :
    (([] : List PushSubscription).map (fun t => t.endpoint)).Nodup
      ∧ demoSub.endpoint = demoSubLater.endpoint
      ∧ ∃ i : Nat,
          (registerSubscription [] demoSub).findIdx?
              (fun t => t.endpoint == demoSubLater.endpoint) = some i
            ∧ registerSubscription (registerSubscription [] demoSub) demoSubLater
                = (registerSubscription [] demoSub).set i demoSubLater
            ∧ i < (registerSubscription [] demoSub).length
            ∧ (registerSubscription (registerSubscription [] demoSub) demoSubLater)[i]?
                = some demoSubLater
            ∧ (registerSubscription (registerSubscription [] demoSub) demoSubLater).length
                = (registerSubscription [] demoSub).length
            ∧ (registerSubscription (registerSubscription [] demoSub) demoSubLater).countP
                (fun t => t.endpoint == demoSubLater.endpoint) = 1 :=
  ⟨by decide, rfl, C4_reregistration_in_place [] demoSub demoSubLater (by decide) rfl⟩

/-- C9: every click closes the notification first; a dismiss-action
click performs no window operation at all; any other click focuses the
first focusable window and navigates it to data.url (defaulted to "/")
exactly when that window shows a different URL, never opening a new
window, while with no focusable window it opens a new one at that URL;
a failing window operation only sets the logged-error flag of the caught
chain — the handler still returns its result. -/
theorem C9_click_handling (dataUrl : Option String) (action : String)
    (cs : List ClientInfo) (opFails : WindowOp → Bool) :
    (handleNotificationClick dataUrl action cs true opFails).closed = true
      ∧ (action = "dismiss" →
          handleNotificationClick dataUrl action cs true opFails
            = { closed := true, ops := [], errorLogged := false })
      ∧ (action ≠ "dismiss" → ∀ i c, findFocusable cs = some (i, c) →
          (handleNotificationClick dataUrl action cs true opFails).ops.head?
              = some (.focusOp i)
            ∧ (∀ u, WindowOp.navigateOp i u
                  ∈ (handleNotificationClick dataUrl action cs true opFails).ops →
                u = dataUrl.getD "/" ∧ c.url ≠ u)
            ∧ (opFails (.focusOp i) = false → c.url ≠ dataUrl.getD "/" →
                WindowOp.navigateOp i (dataUrl.getD "/")
                  ∈ (handleNotificationClick dataUrl action cs true opFails).ops)
            ∧ (∀ u, WindowOp.openWindowOp u
                ∉ (handleNotificationClick dataUrl action cs true opFails).ops))
      ∧ (action ≠ "dismiss" → findFocusable cs = none →
          (handleNotificationClick dataUrl action cs true opFails).ops
            = [.openWindowOp (dataUrl.getD "/")])
      ∧ ((∀ op ∈ (handleNotificationClick dataUrl action cs true opFails).ops,
            opFails op = false) →
          (handleNotificationClick dataUrl action cs true opFails).errorLogged = false)
      ∧ ((handleNotificationClick dataUrl action cs true opFails).errorLogged = true →
          ∃ op ∈ (handleNotificationClick dataUrl action cs true opFails).ops,
            opFails op = true) := by
  by_cases hd : action = "dismiss"
  · refine ⟨by simp [handleNotificationClick, hd], fun _ => by simp [handleNotificationClick, hd],
      fun hne => absurd hd hne, fun hne => absurd hd hne, fun _ => by simp [handleNotificationClick, hd],
      fun habs => ?_⟩
    simp [handleNotificationClick, hd] at habs
  · have hh : handleNotificationClick dataUrl action cs true opFails
        = { closed := true
            ops := (clickChain cs true (dataUrl.getD "/") opFails).1
            errorLogged := (clickChain cs true (dataUrl.getD "/") opFails).2 } := by
      simp [handleNotificationClick, hd]
    rw [hh]
    cases hf : findFocusable cs with
    | some p =>
      obtain ⟨i, c⟩ := p
      by_cases h1 : opFails (.focusOp i) = true
      · have hc : clickChain cs true (dataUrl.getD "/") opFails = ([.focusOp i], true) := by
          simp [clickChain, hf, h1]
        rw [hc]
        refine ⟨rfl, fun habs => absurd habs hd, ?_, ?_, ?_, ?_⟩
        · intro _ i2 c2 hf2
          obtain ⟨rfl, rfl⟩ : i2 = i ∧ c2 = c := by
            constructor <;> [exact congrArg Prod.fst (Option.some.inj hf2).symm;
              exact congrArg Prod.snd (Option.some.inj hf2).symm]
          refine ⟨rfl, ?_, ?_, ?_⟩
          · intro u hu
            simp at hu
          · intro h2 _
            rw [h1] at h2
            exact absurd h2 (by simp)
          · intro u hu
            simp at hu
        · intro _ hnone
          exact Option.noConfusion hnone
        · intro hall
          have := hall (.focusOp i) (by simp)
          rw [h1] at this
          exact absurd this (by simp)
        · intro _
          exact ⟨.focusOp i, by simp, h1⟩
      · have h1f : opFails (.focusOp i) = false := by
          revert h1; cases opFails (.focusOp i) <;> simp
        by_cases h2 : c.url = dataUrl.getD "/"
        · have hc : clickChain cs true (dataUrl.getD "/") opFails = ([.focusOp i], false) := by
            simp [clickChain, hf, h1f, h2]
          rw [hc]
          refine ⟨rfl, fun habs => absurd habs hd, ?_, ?_, fun _ => rfl, fun habs => by simp at habs⟩
          · intro _ i2 c2 hf2
            obtain ⟨rfl, rfl⟩ : i2 = i ∧ c2 = c := by
              constructor <;> [exact congrArg Prod.fst (Option.some.inj hf2).symm;
                exact congrArg Prod.snd (Option.some.inj hf2).symm]
            refine ⟨rfl, ?_, ?_, ?_⟩
            · intro u hu
              simp at hu
            · intro _ hdiff
              exact absurd h2 hdiff
            · intro u hu
              simp at hu
          · intro _ hnone
            exact Option.noConfusion hnone
        · by_cases h3 : opFails (.navigateOp i (dataUrl.getD "/")) = true
          · have hc : clickChain cs true (dataUrl.getD "/") opFails
                = ([.focusOp i, .navigateOp i (dataUrl.getD "/")], true) := by
              simp [clickChain, hf, h1f, h2, h3]
            rw [hc]
            refine ⟨rfl, fun habs => absurd habs hd, ?_, ?_, ?_, ?_⟩
            · intro _ i2 c2 hf2
              obtain ⟨rfl, rfl⟩ : i2 = i ∧ c2 = c := by
                constructor <;> [exact congrArg Prod.fst (Option.some.inj hf2).symm;
                  exact congrArg Prod.snd (Option.some.inj hf2).symm]
              refine ⟨rfl, ?_, ?_, ?_⟩
              · intro u hu
                have hu2 : u = dataUrl.getD "/" := by
                  simp at hu
                  exact hu
                exact ⟨hu2, by rw [hu2]; exact h2⟩
              · intro _ _
                simp
              · intro u hu
                simp at hu
            · intro _ hnone
              exact Option.noConfusion hnone
            · intro hall
              have := hall (.navigateOp i (dataUrl.getD "/")) (by simp)
              rw [h3] at this
              exact absurd this (by simp)
            · intro _
              exact ⟨.navigateOp i (dataUrl.getD "/"), by simp, h3⟩
          · have h3f : opFails (.navigateOp i (dataUrl.getD "/")) = false := by
              revert h3; cases opFails (.navigateOp i (dataUrl.getD "/")) <;> simp
            have hc : clickChain cs true (dataUrl.getD "/") opFails
                = ([.focusOp i, .navigateOp i (dataUrl.getD "/")], false) := by
              simp [clickChain, hf, h1f, h2, h3f]
            rw [hc]
            refine ⟨rfl, fun habs => absurd habs hd, ?_, ?_, fun _ => rfl,
              fun habs => by simp at habs⟩
            · intro _ i2 c2 hf2
              obtain ⟨rfl, rfl⟩ : i2 = i ∧ c2 = c := by
                constructor <;> [exact congrArg Prod.fst (Option.some.inj hf2).symm;
                  exact congrArg Prod.snd (Option.some.inj hf2).symm]
              refine ⟨rfl, ?_, ?_, ?_⟩
              · intro u hu
                have hu2 : u = dataUrl.getD "/" := by
                  simp at hu
                  exact hu
                exact ⟨hu2, by rw [hu2]; exact h2⟩
              · intro _ _
                simp
              · intro u hu
                simp at hu
            · intro _ hnone
              exact Option.noConfusion hnone
    | none =>
      by_cases h4 : opFails (.openWindowOp (dataUrl.getD "/")) = true
      · have hc : clickChain cs true (dataUrl.getD "/") opFails
            = ([.openWindowOp (dataUrl.getD "/")], true) := by
          simp [clickChain, hf, h4]
        rw [hc]
        refine ⟨rfl, fun habs => absurd habs hd, ?_, fun _ _ => rfl, ?_, ?_⟩
        · intro _ i2 c2 hf2
          exact Option.noConfusion hf2
        · intro hall
          have := hall (.openWindowOp (dataUrl.getD "/")) (by simp)
          rw [h4] at this
          exact absurd this (by simp)
        · intro _
          exact ⟨.openWindowOp (dataUrl.getD "/"), by simp, h4⟩
      · have h4f : opFails (.openWindowOp (dataUrl.getD "/")) = false := by
          revert h4; cases opFails (.openWindowOp (dataUrl.getD "/")) <;> simp
        have hc : clickChain cs true (dataUrl.getD "/") opFails
            = ([.openWindowOp (dataUrl.getD "/")], false) := by
          simp [clickChain, hf, h4f]
        rw [hc]
        refine ⟨rfl, fun habs => absurd habs hd, ?_, fun _ _ => rfl, fun _ => rfl,
          fun habs => by simp at habs⟩
        intro _ i2 c2 hf2
        exact Option.noConfusion hf2
